import Mathlib

/-!
Shallow embedding of `pkg/pki/pki.go` (package `pki` of the `ae` repository)
and proofs about its specification claims.

The Go code issues a self-signed root CA: it generates an RSA key, builds an
x509 certificate template, draws a random serial number, sets the subject and
authority key identifiers to the SHA-1 digest of the public-key modulus,
self-signs, PEM-encodes certificate and key, and optionally persists both to
disk.

Modelling conventions:
* bytes are `Nat` values (< 256 under the well-formedness predicate);
* machine words are `Nat` reduced mod `2 ^ 32` / `2 ^ 64` explicitly;
* randomness, wall-clock time, the outcome of `x509.CreateCertificate` and
  filesystem success/failure are inputs collected in an `Env` record;
* Go standard-library functions whose internals the claims depend on
  (`crypto/sha1`, `encoding/pem` + `encoding/base64`, `crypto/rand.Int` at
  limit `2 ^ 128`, `big.Int.Bytes`) are embedded concretely from their
  sources; functions whose output the claims treat as opaque byte strings
  (`x509.MarshalPKCS1PrivateKey`, `filepath.Clean`, the DER output of
  `x509.CreateCertificate`) are uninterpreted parameters of the model.
-/

namespace Pki

/-! ### Byte-level helpers -/

/-- Big-endian minimal byte representation of a natural number, as produced by
Go's `math/big.Int.Bytes` for a non-negative integer: the empty slice for `0`,
otherwise the base-256 digits most significant first with no leading zero. -/
def natToBeBytes (n : Nat) : List Nat :=
  if h : n = 0 then [] else natToBeBytes (n / 256) ++ [n % 256]
  termination_by n
  decreasing_by exact Nat.div_lt_self (Nat.pos_of_ne_zero h) (by omega)

/-- Fixed-width big-endian byte representation (width `k` bytes), truncating to
the low `8 * k` bits like Go's `binary.BigEndian.PutUint64` / `PutUint32`. -/
def beBytesFixed : Nat → Nat → List Nat
  | 0, _ => []
  | k + 1, n => beBytesFixed k (n / 256) ++ [n % 256]

/-- Big-endian interpretation of a byte slice as a natural number, as performed
by Go's `big.Int.SetBytes` (used inside `crypto/rand.Int`). -/
def beBytesToNat (bs : List Nat) : Nat :=
  bs.foldl (fun acc b => acc * 256 + b) 0

/-! ### SHA-1 (Go `crypto/sha1`, FIPS 180-4) -/

/-- Reduce to a 32-bit word. -/
def w32 (n : Nat) : Nat := n % 4294967296

/-- 32-bit left rotation by `s` bits (Go `bits.RotateLeft32`). -/
def rotl32 (s n : Nat) : Nat :=
  w32 (n <<< s) ||| (n >>> (32 - s))

/-- SHA-1 round constants. -/
def sha1K (i : Nat) : Nat :=
  if i < 20 then 0x5A827999
  else if i < 40 then 0x6ED9EBA1
  else if i < 60 then 0x8F1BBCDC
  else 0xCA62C1D6

/-- SHA-1 round functions; 32-bit complement written as xor with `0xFFFFFFFF`. -/
def sha1F (i b c d : Nat) : Nat :=
  if i < 20 then (b &&& c) ||| ((b ^^^ 0xFFFFFFFF) &&& d)
  else if i < 40 then b ^^^ c ^^^ d
  else if i < 60 then (b &&& c) ||| (b &&& d) ||| (c &&& d)
  else b ^^^ c ^^^ d

/-- Group a byte list into big-endian 32-bit words. -/
def beWords : List Nat → List Nat
  | a :: b :: c :: d :: rest =>
      (a * 16777216 + b * 65536 + c * 256 + d) :: beWords rest
  | _ => []

/-- Message schedule: extend the 16 block words to 80 words. -/
def sha1Schedule (block : List Nat) : Array Nat :=
  (List.range 64).foldl
    (fun w j =>
      w.push (rotl32 1
        ((w.getD (j + 13) 0) ^^^ (w.getD (j + 8) 0) ^^^
         (w.getD (j + 2) 0) ^^^ (w.getD j 0))))
    (beWords block).toArray

/-- One SHA-1 round on the five-word state. -/
def sha1Round (w : Array Nat) (st : Nat × Nat × Nat × Nat × Nat) (i : Nat) :
    Nat × Nat × Nat × Nat × Nat :=
  let (a, b, c, d, e) := st
  let t := w32 (rotl32 5 a + sha1F i b c d + e + sha1K i + w.getD i 0)
  (t, a, rotl32 30 b, c, d)

/-- Process one 64-byte block. -/
def sha1Block (h : Nat × Nat × Nat × Nat × Nat) (block : List Nat) :
    Nat × Nat × Nat × Nat × Nat :=
  let w := sha1Schedule block
  let (a, b, c, d, e) := (List.range 80).foldl (sha1Round w) h
  (w32 (h.1 + a), w32 (h.2.1 + b), w32 (h.2.2.1 + c),
   w32 (h.2.2.2.1 + d), w32 (h.2.2.2.2 + e))

/-- Merkle–Damgård padding: append `0x80`, zero bytes up to 56 mod 64, then the
bit length as a 64-bit big-endian integer. -/
def sha1Pad (msg : List Nat) : List Nat :=
  msg ++ 128 :: List.replicate ((119 - msg.length % 64) % 64) 0 ++
    beBytesFixed 8 (msg.length * 8)

/-- Split a byte list into consecutive 64-byte chunks. -/
def chunk64 (l : List Nat) : List (List Nat) :=
  if h : l = [] then [] else l.take 64 :: chunk64 (l.drop 64)
  termination_by l.length
  decreasing_by
    simp only [List.length_drop]
    have : l.length ≠ 0 := fun hl => h (List.eq_nil_of_length_eq_zero hl)
    omega

/-- SHA-1 digest of a byte list, 20 bytes, as computed by Go's `sha1.Sum`. -/
def sha1 (msg : List Nat) : List Nat :=
  let h := (chunk64 (sha1Pad msg)).foldl sha1Block
    (0x67452301, 0xEFCDAB89, 0x98BADCFE, 0x10325476, 0xC3D2E1F0)
  beBytesFixed 4 h.1 ++ beBytesFixed 4 h.2.1 ++ beBytesFixed 4 h.2.2.1 ++
    beBytesFixed 4 h.2.2.2.1 ++ beBytesFixed 4 h.2.2.2.2

end Pki

namespace Pki

/-! ### Base64 and PEM encoding (Go `encoding/base64` StdEncoding and
`encoding/pem.Encode`) -/

/-- The standard base64 alphabet character for an index in `[0, 64)`. -/
def base64Char (n : Nat) : Char :=
  "ABCDEFGHIJKLMNOPQRSTUVWXYZabcdefghijklmnopqrstuvwxyz0123456789+/".toList.getD n 'A'

/-- Standard base64 encoding with `=` padding (Go `base64.StdEncoding`). -/
def base64Encode : List Nat → List Char
  | b0 :: b1 :: b2 :: rest =>
      let v := b0 <<< 16 ||| b1 <<< 8 ||| b2
      base64Char (v >>> 18 &&& 63) :: base64Char (v >>> 12 &&& 63) ::
        base64Char (v >>> 6 &&& 63) :: base64Char (v &&& 63) ::
        base64Encode rest
  | [b0, b1] =>
      let v := b0 <<< 16 ||| b1 <<< 8
      [base64Char (v >>> 18 &&& 63), base64Char (v >>> 12 &&& 63),
       base64Char (v >>> 6 &&& 63), '=']
  | [b0] =>
      let v := b0 <<< 16
      [base64Char (v >>> 18 &&& 63), base64Char (v >>> 12 &&& 63), '=', '=']
  | [] => []

/-- Split a character stream into lines of at most 64 characters, each
terminated by a newline; the empty stream yields no line (Go `encoding/pem`'s
`lineBreaker`). -/
def wrapLines (cs : List Char) : List Char :=
  if h : cs = [] then []
  else if cs.length ≤ 64 then cs ++ ['\n']
  else cs.take 64 ++ '\n' :: wrapLines (cs.drop 64)
  termination_by cs.length
  decreasing_by
    simp only [List.length_drop]
    have : cs.length ≠ 0 := fun hl => h (List.eq_nil_of_length_eq_zero hl)
    omega

/-- `pem.Encode` of a block with no headers into an in-memory buffer: the
BEGIN line, the base64 body wrapped at 64 columns, and the END line. Writes
to a `bytes.Buffer` cannot fail, so the encoding is total. -/
def pemEncode (ty : String) (bytes : List Nat) : String :=
  "-----BEGIN " ++ ty ++ "-----\n" ++
    String.mk (wrapLines (base64Encode bytes)) ++
    "-----END " ++ ty ++ "-----\n"

end Pki

namespace Pki

/-! ### Data model (Go structures used by `pki.go`) -/

/-- Go `rsa.PublicKey`: modulus `N` (a non-negative big integer in every key
produced by `rsa.GenerateKey`) and public exponent `E`. -/
structure RSAPublicKey where
  N : Nat
  E : Int
  deriving Repr, DecidableEq

/-- Go `rsa.PrivateKey` (the fields relevant to this program). -/
structure RSAPrivateKey where
  PublicKey : RSAPublicKey
  D : Nat
  Primes : List Nat
  deriving Repr, DecidableEq

/-- Go `pkix.Name` restricted to the fields `pki.go` assigns. -/
structure PkixName where
  Organization : List String
  OrganizationalUnit : List String
  StreetAddress : List String
  Locality : List String
  Country : List String
  CommonName : String
  deriving Repr, DecidableEq

/-- Go `x509.Certificate` restricted to the template fields `pki.go` assigns.
Times are `Int` nanoseconds (Go `time.Time` instants; `time.Duration` is an
integer nanosecond count). Key identifiers are byte lists. -/
structure Certificate where
  Subject : PkixName
  NotBefore : Int
  NotAfter : Int
  IsCA : Bool
  BasicConstraintsValid : Bool
  DNSNames : List String
  SerialNumber : Nat
  SubjectKeyId : List Nat
  AuthorityKeyId : List Nat
  deriving Repr, DecidableEq

/-- Go `pki.AuraeCA`: the returned bundle of PEM strings. -/
structure AuraeCA where
  Certificate : String
  Key : String
  deriving Repr, DecidableEq

/-- Nanoseconds in `time.Hour`. -/
def nanosPerHour : Int := 3600 * 1000000000

/-! ### Effect environment -/

/-- Filesystem operations attempted by `createCAFiles` /
`writeStringToFile`, in order. `mkdirAll` records `os.MkdirAll` on the
cleaned path; `writeFile` records an `os.OpenFile(..., O_WRONLY|O_CREATE|
O_TRUNC, 0600)` followed by `WriteString` of the given contents. -/
inductive FSAction where
  | mkdirAll (path : String)
  | writeFile (path : String) (contents : String)
  deriving Repr, DecidableEq

/-- The error classes `CreateAuraeRootCA` can return, mirroring the wrapped
error returns of `pki.go`.  `pem.Encode` into a `bytes.Buffer` cannot fail
(buffer writes always succeed), so the error checks after `getCertBuf` /
`getKeyBuf` are dead branches and no encoding error constructor exists. -/
inductive PersistError where
  | mkdir
  | write (path : String)
  deriving Repr, DecidableEq

inductive CAError where
  | keyGen
  | serialNum
  | createCert
  | persist (e : PersistError)
  deriving Repr, DecidableEq

/-- The non-deterministic inputs of one `CreateAuraeRootCA` call: outcomes of
the random sources, the clock, the DER signer and the filesystem.
* `keyGen`: outcome of `rsa.GenerateKey(rand.Reader, 2048)`.
* `serialRead`: the bytes `crypto/rand.Int` reads from `rand.Reader`
  (`none` = reader failure). For limit `2 ^ 128` it reads exactly 16 bytes.
* `now`: `time.Now()` as nanoseconds.
* `createCert`: outcome of `x509.CreateCertificate` on the final template and
  key (`none` = failure, `some der` = the DER bytes).
* `mkdirOk` / `writeOk`: whether `os.MkdirAll` on a path, resp. open+write of
  a file at a path, succeeds. -/
structure Env where
  keyGen : Option RSAPrivateKey
  serialRead : Option (List Nat)
  now : Int
  createCert : Certificate → RSAPrivateKey → Option (List Nat)
  mkdirOk : String → Bool
  writeOk : String → Bool

/-- Environment well-formedness: the bytes delivered by the random reader are
genuine bytes, and `io.ReadFull` delivers exactly the 16 bytes
`crypto/rand.Int` requests for limit `2 ^ 128`. -/
def Env.WF (env : Env) : Prop :=
  match env.serialRead with
  | none => True
  | some bs => bs.length = 16 ∧ ∀ b ∈ bs, b < 256

/-- `crypto/rand.Int(rand.Reader, 1 <<< 128)` given the bytes the reader
delivers. For a power-of-two limit `2 ^ 128` the bit length of `max - 1` is
128, so 16 bytes are read, the top-byte mask `&= 0xFF` is the identity, and
the rejection loop accepts on the first draw; the result is the big-endian
value of the 16 bytes. `none` models a reader error. -/
def randIntSerial (read : Option (List Nat)) : Option Nat :=
  match read with
  | none => none
  | some bs => some (beBytesToNat bs)

/-- Result of one modelled call: `ca` is the contents behind the returned
`*AuraeCA` pointer (`none` would be a nil pointer — the code never returns
one), `err` the returned error, `trace` the filesystem actions attempted.
`key`, `cert`, `der` and `computed` are ghost observations of the
intermediate values (the generated private key, the final template passed to
`x509.CreateCertificate`, its DER outcome, and the in-memory bundle built at
line 111), exposed so theorems can speak about them; each is `none` when the
call failed before the value was produced. -/
structure CAResult where
  ca : Option AuraeCA
  err : Option CAError
  trace : List FSAction
  key : Option RSAPrivateKey
  cert : Option Certificate
  der : Option (List Nat)
  computed : Option AuraeCA

/-- `createCAFiles(path, ca)` from `pki.go`: clean the path, `os.MkdirAll`,
then write `ca.crt` and `ca.key`, stopping at the first failure. `clean`
is Go's `filepath.Clean`, uninterpreted (the claims do not depend on its
definition); `filepath.Join(a, b)` is `Clean(a + "/" + b)`. -/
def createCAFiles (clean : String → String) (env : Env) (path : String)
    (ca : AuraeCA) : Option PersistError × List FSAction :=
  let path := clean path
  if !env.mkdirOk path then (some .mkdir, [.mkdirAll path])
  else
    let crtPath := clean (path ++ "/" ++ "ca.crt")
    let keyPath := clean (path ++ "/" ++ "ca.key")
    if !env.writeOk crtPath then
      (some (.write crtPath), [.mkdirAll path, .writeFile crtPath ca.Certificate])
    else if !env.writeOk keyPath then
      (some (.write keyPath),
        [.mkdirAll path, .writeFile crtPath ca.Certificate,
         .writeFile keyPath ca.Key])
    else
      (none,
        [.mkdirAll path, .writeFile crtPath ca.Certificate,
         .writeFile keyPath ca.Key])

/-- The certificate template built by lines 59–95 of `pki.go`: the constant
subject, the caller-supplied common name and DNS name,
`NotBefore = time.Now()`, `NotAfter = NotBefore.Add(24 * time.Hour * 9999)`,
`IsCA`, `BasicConstraintsValid`, the drawn serial, and both key identifiers
set to `sha1.Sum(priv.PublicKey.N.Bytes())`. -/
def caTemplate (now : Int) (domainName : String) (serial : Nat)
    (modulus : Nat) : Certificate :=
  { Subject :=
      { Organization := ["Aurae"], OrganizationalUnit := ["Runtime"],
        StreetAddress := ["aurae"], Locality := ["aurae"],
        Country := ["IS"], CommonName := domainName },
    NotBefore := now,
    NotAfter := now + 24 * nanosPerHour * 9999,
    IsCA := true, BasicConstraintsValid := true,
    DNSNames := [domainName],
    SerialNumber := serial,
    SubjectKeyId := sha1 (natToBeBytes modulus),
    AuthorityKeyId := sha1 (natToBeBytes modulus) }

/-- The in-memory bundle built at lines 102–114 of `pki.go`:
`getCertBuf(derBytes)` and `getKeyBuf(priv)`, i.e. the PEM blocks of the DER
certificate and of the PKCS#1-marshalled private key. -/
def caBundle (marshal : RSAPrivateKey → List Nat) (priv : RSAPrivateKey)
    (derBytes : List Nat) : AuraeCA :=
  { Certificate := pemEncode "CERTIFICATE" derBytes,
    Key := pemEncode "RSA PRIVATE KEY" (marshal priv) }

/-- `CreateAuraeRootCA(path, domainName)` from `pki.go`, step for step:
generate the key; build the template (`caTemplate`); draw the serial from
`[0, 2^128)`; self-sign; PEM-encode certificate (`getCertBuf`) and PKCS#1
key (`getKeyBuf`, with `marshal` standing for
`x509.MarshalPKCS1PrivateKey`); persist when `path` is non-empty. Every
early `return &AuraeCA{}, err` becomes `ca := some ⟨"", ""⟩`. -/
def createAuraeRootCA (clean : String → String)
    (marshal : RSAPrivateKey → List Nat) (env : Env)
    (path domainName : String) : CAResult :=
  match env.keyGen with
  | none =>
      { ca := some ⟨"", ""⟩, err := some .keyGen, trace := [],
        key := none, cert := none, der := none, computed := none }
  | some priv =>
    match randIntSerial env.serialRead with
    | none =>
        { ca := some ⟨"", ""⟩, err := some .serialNum, trace := [],
          key := some priv, cert := none, der := none, computed := none }
    | some serial =>
      let template := caTemplate env.now domainName serial priv.PublicKey.N
      match env.createCert template priv with
      | none =>
          { ca := some ⟨"", ""⟩, err := some .createCert, trace := [],
            key := some priv, cert := some template, der := none,
            computed := none }
      | some derBytes =>
        let ca := caBundle marshal priv derBytes
        if path ≠ "" then
          match createCAFiles clean env path ca with
          | (some e, tr) =>
              { ca := some ca, err := some (.persist e), trace := tr,
                key := some priv, cert := some template,
                der := some derBytes, computed := some ca }
          | (none, tr) =>
              { ca := some ca, err := none, trace := tr,
                key := some priv, cert := some template,
                der := some derBytes, computed := some ca }
        else
          { ca := some ca, err := none, trace := [],
            key := some priv, cert := some template,
            der := some derBytes, computed := some ca }

/-- Whether an error is of the persistence class. -/
def CAError.isPersist : CAError → Bool
  | .persist _ => true
  | _ => false

/-- Replace the filesystem outcomes of an environment, keeping the key,
serial, clock and signer outcomes. -/
def Env.setFS (env : Env) (f g : String → Bool) : Env :=
  { env with mkdirOk := f, writeOk := g }

/-! ### Branch equations for `createAuraeRootCA` -/

theorem run_keyGen_fail (clean : String → String)
    (marshal : RSAPrivateKey → List Nat) (env : Env) (path d : String)
    (h : env.keyGen = none) :
    createAuraeRootCA clean marshal env path d =
      { ca := some ⟨"", ""⟩, err := some .keyGen, trace := [],
        key := none, cert := none, der := none, computed := none } := by
  simp [createAuraeRootCA, h]

theorem run_serial_fail (clean : String → String)
    (marshal : RSAPrivateKey → List Nat) (env : Env) (path d : String)
    (priv : RSAPrivateKey) (h1 : env.keyGen = some priv)
    (h2 : env.serialRead = none) :
    createAuraeRootCA clean marshal env path d =
      { ca := some ⟨"", ""⟩, err := some .serialNum, trace := [],
        key := some priv, cert := none, der := none, computed := none } := by
  simp [createAuraeRootCA, randIntSerial, h1, h2]

theorem run_createCert_fail (clean : String → String)
    (marshal : RSAPrivateKey → List Nat) (env : Env) (path d : String)
    (priv : RSAPrivateKey) (bs : List Nat)
    (h1 : env.keyGen = some priv) (h2 : env.serialRead = some bs)
    (h3 : env.createCert
        (caTemplate env.now d (beBytesToNat bs) priv.PublicKey.N) priv
      = none) :
    createAuraeRootCA clean marshal env path d =
      { ca := some ⟨"", ""⟩, err := some .createCert, trace := [],
        key := some priv,
        cert := some (caTemplate env.now d (beBytesToNat bs) priv.PublicKey.N),
        der := none, computed := none } := by
  simp [createAuraeRootCA, randIntSerial, h1, h2, h3]

theorem run_success_nopath (clean : String → String)
    (marshal : RSAPrivateKey → List Nat) (env : Env) (d : String)
    (priv : RSAPrivateKey) (bs der : List Nat)
    (h1 : env.keyGen = some priv) (h2 : env.serialRead = some bs)
    (h3 : env.createCert
        (caTemplate env.now d (beBytesToNat bs) priv.PublicKey.N) priv
      = some der) :
    createAuraeRootCA clean marshal env "" d =
      { ca := some (caBundle marshal priv der), err := none, trace := [],
        key := some priv,
        cert := some (caTemplate env.now d (beBytesToNat bs) priv.PublicKey.N),
        der := some der, computed := some (caBundle marshal priv der) } := by
  simp [createAuraeRootCA, randIntSerial, h1, h2, h3]

theorem run_persist_fail (clean : String → String)
    (marshal : RSAPrivateKey → List Nat) (env : Env) (path d : String)
    (priv : RSAPrivateKey) (bs der : List Nat) (e : PersistError)
    (tr : List FSAction) (h0 : path ≠ "")
    (h1 : env.keyGen = some priv) (h2 : env.serialRead = some bs)
    (h3 : env.createCert
        (caTemplate env.now d (beBytesToNat bs) priv.PublicKey.N) priv
      = some der)
    (h4 : createCAFiles clean env path (caBundle marshal priv der)
      = (some e, tr)) :
    createAuraeRootCA clean marshal env path d =
      { ca := some (caBundle marshal priv der), err := some (.persist e),
        trace := tr, key := some priv,
        cert := some (caTemplate env.now d (beBytesToNat bs) priv.PublicKey.N),
        der := some der, computed := some (caBundle marshal priv der) } := by
  simp [createAuraeRootCA, randIntSerial, h0, h1, h2, h3, h4]

theorem run_persist_ok (clean : String → String)
    (marshal : RSAPrivateKey → List Nat) (env : Env) (path d : String)
    (priv : RSAPrivateKey) (bs der : List Nat) (tr : List FSAction)
    (h0 : path ≠ "")
    (h1 : env.keyGen = some priv) (h2 : env.serialRead = some bs)
    (h3 : env.createCert
        (caTemplate env.now d (beBytesToNat bs) priv.PublicKey.N) priv
      = some der)
    (h4 : createCAFiles clean env path (caBundle marshal priv der)
      = (none, tr)) :
    createAuraeRootCA clean marshal env path d =
      { ca := some (caBundle marshal priv der), err := none,
        trace := tr, key := some priv,
        cert := some (caTemplate env.now d (beBytesToNat bs) priv.PublicKey.N),
        der := some der, computed := some (caBundle marshal priv der) } := by
  simp [createAuraeRootCA, randIntSerial, h0, h1, h2, h3, h4]

theorem run_cert_char (clean : String → String)
    (marshal : RSAPrivateKey → List Nat) (env : Env) (path d : String)
    (c : Certificate)
    (hc : (createAuraeRootCA clean marshal env path d).cert = some c) :
    ∃ priv bs, env.keyGen = some priv ∧ env.serialRead = some bs ∧
      c = caTemplate env.now d (beBytesToNat bs) priv.PublicKey.N := by
  rcases h1 : env.keyGen with _ | priv
  · rw [run_keyGen_fail clean marshal env path d h1] at hc
    simp at hc
  rcases h2 : env.serialRead with _ | bs
  · rw [run_serial_fail clean marshal env path d priv h1 h2] at hc
    simp at hc
  rcases h3 : env.createCert
      (caTemplate env.now d (beBytesToNat bs) priv.PublicKey.N) priv
    with _ | der
  · rw [run_createCert_fail clean marshal env path d priv bs h1 h2 h3] at hc
    simp at hc
    exact ⟨priv, bs, rfl, rfl, hc.symm⟩
  by_cases h0 : path = ""
  · subst h0
    rw [run_success_nopath clean marshal env d priv bs der h1 h2 h3] at hc
    simp at hc
    exact ⟨priv, bs, rfl, rfl, hc.symm⟩
  rcases h4 : createCAFiles clean env path (caBundle marshal priv der)
    with ⟨oe, tr⟩
  rcases oe with _ | e
  · rw [run_persist_ok clean marshal env path d priv bs der tr
      h0 h1 h2 h3 h4] at hc
    simp at hc
    exact ⟨priv, bs, rfl, rfl, hc.symm⟩
  · rw [run_persist_fail clean marshal env path d priv bs der e tr
      h0 h1 h2 h3 h4] at hc
    simp at hc
    exact ⟨priv, bs, rfl, rfl, hc.symm⟩

theorem run_key_char (clean : String → String)
    (marshal : RSAPrivateKey → List Nat) (env : Env) (path d : String)
    (k : RSAPrivateKey)
    (hk : (createAuraeRootCA clean marshal env path d).key = some k) :
    env.keyGen = some k := by
  rcases h1 : env.keyGen with _ | priv
  · rw [run_keyGen_fail clean marshal env path d h1] at hk
    simp at hk
  rcases h2 : env.serialRead with _ | bs
  · rw [run_serial_fail clean marshal env path d priv h1 h2] at hk
    simp at hk
    simp [hk]
  rcases h3 : env.createCert
      (caTemplate env.now d (beBytesToNat bs) priv.PublicKey.N) priv
    with _ | der
  · rw [run_createCert_fail clean marshal env path d priv bs h1 h2 h3] at hk
    simp at hk
    simp [hk]
  by_cases h0 : path = ""
  · subst h0
    rw [run_success_nopath clean marshal env d priv bs der h1 h2 h3] at hk
    simp at hk
    simp [hk]
  rcases h4 : createCAFiles clean env path (caBundle marshal priv der)
    with ⟨oe, tr⟩
  rcases oe with _ | e
  · rw [run_persist_ok clean marshal env path d priv bs der tr
      h0 h1 h2 h3 h4] at hk
    simp at hk
    simp [hk]
  · rw [run_persist_fail clean marshal env path d priv bs der e tr
      h0 h1 h2 h3 h4] at hk
    simp at hk
    simp [hk]

theorem run_success_char (clean : String → String)
    (marshal : RSAPrivateKey → List Nat) (env : Env) (path d : String)
    (he : (createAuraeRootCA clean marshal env path d).err = none) :
    ∃ priv bs der, env.keyGen = some priv ∧ env.serialRead = some bs ∧
      env.createCert
        (caTemplate env.now d (beBytesToNat bs) priv.PublicKey.N) priv
        = some der ∧
      (createAuraeRootCA clean marshal env path d).ca
        = some (caBundle marshal priv der) ∧
      (createAuraeRootCA clean marshal env path d).key = some priv ∧
      (createAuraeRootCA clean marshal env path d).der = some der ∧
      (createAuraeRootCA clean marshal env path d).cert
        = some (caTemplate env.now d (beBytesToNat bs) priv.PublicKey.N) ∧
      (createAuraeRootCA clean marshal env path d).computed
        = some (caBundle marshal priv der) := by
  rcases h1 : env.keyGen with _ | priv
  · rw [run_keyGen_fail clean marshal env path d h1] at he
    simp at he
  rcases h2 : env.serialRead with _ | bs
  · rw [run_serial_fail clean marshal env path d priv h1 h2] at he
    simp at he
  rcases h3 : env.createCert
      (caTemplate env.now d (beBytesToNat bs) priv.PublicKey.N) priv
    with _ | der
  · rw [run_createCert_fail clean marshal env path d priv bs h1 h2 h3] at he
    simp at he
  by_cases h0 : path = ""
  · subst h0
    rw [run_success_nopath clean marshal env d priv bs der h1 h2 h3]
    exact ⟨priv, bs, der, rfl, rfl, h3, rfl, rfl, rfl, rfl, rfl⟩
  rcases h4 : createCAFiles clean env path (caBundle marshal priv der)
    with ⟨oe, tr⟩
  rcases oe with _ | e
  · rw [run_persist_ok clean marshal env path d priv bs der tr
      h0 h1 h2 h3 h4]
    exact ⟨priv, bs, der, rfl, rfl, h3, rfl, rfl, rfl, rfl, rfl⟩
  · rw [run_persist_fail clean marshal env path d priv bs der e tr
      h0 h1 h2 h3 h4] at he
    simp at he

/-- Big-endian accumulation of byte digits stays below `(acc+1) * 256^len`. -/
theorem foldl_base256_lt (bs : List Nat) (acc : Nat)
    (h : ∀ b ∈ bs, b < 256) :
    bs.foldl (fun a b => a * 256 + b) acc < (acc + 1) * 256 ^ bs.length := by
  induction bs generalizing acc with
  | nil => simp
  | cons b bs ih =>
    have hb : b < 256 := h b (by simp)
    have ht := ih (acc * 256 + b) (fun x hx => h x (by simp [hx]))
    calc (b :: bs).foldl (fun a b => a * 256 + b) acc
        = bs.foldl (fun a b => a * 256 + b) (acc * 256 + b) := by simp
      _ < (acc * 256 + b + 1) * 256 ^ bs.length := ht
      _ ≤ ((acc + 1) * 256) * 256 ^ bs.length := by
            have hle : acc * 256 + b + 1 ≤ (acc + 1) * 256 := by omega
            exact Nat.mul_le_mul_right _ hle
      _ = (acc + 1) * 256 ^ (b :: bs).length := by
            simp [List.length_cons, pow_succ]
            ring

/-- A list of bytes read big-endian is below `256 ^ length`. -/
theorem beBytesToNat_lt (bs : List Nat) (h : ∀ b ∈ bs, b < 256) :
    beBytesToNat bs < 256 ^ bs.length := by
  simpa [beBytesToNat] using foldl_base256_lt bs 0 h

/-! ### Concrete data for witnesses -/

/-- A concrete path-normalisation function for witnesses. -/
def clean0 : String → String := id

/-- A concrete PKCS#1 marshaller outcome for witnesses. -/
def marshal0 : RSAPrivateKey → List Nat := fun _ => [48, 1, 2]

/-- A concrete RSA key (modulus 5). -/
def key0 : RSAPrivateKey := ⟨⟨5, 3⟩, 7, [2, 3]⟩

/-- Sixteen concrete bytes for the serial draw. -/
def bytes0 : List Nat := List.replicate 15 0 ++ [9]

/-- A fully successful environment. -/
def env0 : Env :=
  { keyGen := some key0, serialRead := some bytes0, now := 1700000000,
    createCert := fun _ _ => some [1, 2, 3],
    mkdirOk := fun _ => true, writeOk := fun _ => true }

/-- The environment `env0` with a failing `os.MkdirAll`. -/
def envMkdirFail : Env := { env0 with mkdirOk := fun _ => false }

/-- The certificate template `env0` produces for domain `example.aurae.io`. -/
def cert0 : Certificate :=
  caTemplate 1700000000 "example.aurae.io" (beBytesToNat bytes0) 5

/-! ### Claim theorems -/

/-- Claim C1: for every successful call to `CreateAuraeRootCA`, the issued
certificate's Subject Key Identifier and Authority Key Identifier are both
equal to the SHA-1 digest of the big-endian byte representation of the RSA
public key's modulus, hence the two identifier fields are bitwise
identical. -/
theorem C1_subject_authority_key_id (clean : String → String)
    (marshal : RSAPrivateKey → List Nat) (env : Env) (path d : String)
    (k : RSAPrivateKey) (c : Certificate)
    (hk : (createAuraeRootCA clean marshal env path d).key = some k)
    (hc : (createAuraeRootCA clean marshal env path d).cert = some c)
    (he : (createAuraeRootCA clean marshal env path d).err = none) :
    c.SubjectKeyId = sha1 (natToBeBytes k.PublicKey.N) ∧
      c.AuthorityKeyId = c.SubjectKeyId := by
  obtain ⟨priv, bs, h1, h2, hcc⟩ := run_cert_char clean marshal env path d c hc
  have hkk := run_key_char clean marshal env path d k hk
  rw [h1] at hkk
  have hpk : priv = k := by injection hkk
  subst hpk
  subst hcc
  exact ⟨rfl, rfl⟩

/-- Witness for C1 at the concrete environment `env0`. -/
theorem C1_witness :
    (createAuraeRootCA clean0 marshal0 env0 "" "example.aurae.io").key
      = some key0 ∧
    (createAuraeRootCA clean0 marshal0 env0 "" "example.aurae.io").cert
      = some cert0 ∧
    (createAuraeRootCA clean0 marshal0 env0 "" "example.aurae.io").err
      = none ∧
    (cert0.SubjectKeyId = sha1 (natToBeBytes key0.PublicKey.N) ∧
      cert0.AuthorityKeyId = cert0.SubjectKeyId) :=
  ⟨rfl, rfl, rfl,
    C1_subject_authority_key_id clean0 marshal0 env0 "" "example.aurae.io"
      key0 cert0 rfl rfl rfl⟩

/-- Claim C3: for every successful call with a well-formed byte source, the
certificate's serial number is in `[0, 2^128)` (non-negativity is inherent in
the `Nat` value `crypto/rand.Int` produces from the read bytes), and a failure
of the random draw aborts the call with the serial-number error and no
bundle contents. -/
theorem C3_serial_number (clean : String → String)
    (marshal : RSAPrivateKey → List Nat) (env : Env) (path d : String)
    (hwf : env.WF) :
    (∀ c, (createAuraeRootCA clean marshal env path d).cert = some c →
        c.SerialNumber < 2 ^ 128) ∧
    (env.serialRead = none → ∀ priv, env.keyGen = some priv →
        (createAuraeRootCA clean marshal env path d).err
            = some CAError.serialNum ∧
          (createAuraeRootCA clean marshal env path d).ca = some ⟨"", ""⟩) := by
  constructor
  · intro c hc
    obtain ⟨priv, bs, h1, h2, hcc⟩ := run_cert_char clean marshal env path d c hc
    subst hcc
    have hwf' : bs.length = 16 ∧ ∀ b ∈ bs, b < 256 := by
      have h := hwf
      unfold Env.WF at h
      rw [h2] at h
      exact h
    have hlt := beBytesToNat_lt bs hwf'.2
    rw [hwf'.1] at hlt
    have h2128 : (256 : Nat) ^ 16 = 2 ^ 128 := by norm_num
    rw [h2128] at hlt
    exact hlt
  · intro h2 priv h1
    rw [run_serial_fail clean marshal env path d priv h1 h2]
    exact ⟨rfl, rfl⟩

/-- Witness for C3: the concrete environment is well-formed and the concrete
certificate's serial number is below `2 ^ 128`. -/
theorem C3_witness :
    env0.WF ∧ cert0.SerialNumber < 2 ^ 128 :=
  have hwf : env0.WF :=
    (⟨by decide, by decide⟩ : bytes0.length = 16 ∧ ∀ b ∈ bytes0, b < 256)
  ⟨hwf,
    (C3_serial_number clean0 marshal0 env0 "" "example.aurae.io" hwf).1
      cert0 rfl⟩

/-- Claim C4: for every successful call, `notBefore` is the generation time
and `notAfter - notBefore` is exactly 9999 days (9999 times 24 hours, in
nanoseconds). -/
theorem C4_validity_window (clean : String → String)
    (marshal : RSAPrivateKey → List Nat) (env : Env) (path d : String)
    (c : Certificate)
    (hc : (createAuraeRootCA clean marshal env path d).cert = some c)
    (he : (createAuraeRootCA clean marshal env path d).err = none) :
    c.NotBefore = env.now ∧
      c.NotAfter - c.NotBefore = 9999 * (24 * nanosPerHour) := by
  obtain ⟨priv, bs, h1, h2, hcc⟩ := run_cert_char clean marshal env path d c hc
  subst hcc
  refine ⟨rfl, ?_⟩
  show env.now + 24 * nanosPerHour * 9999 - env.now = 9999 * (24 * nanosPerHour)
  ring

/-- Witness for C4 at the concrete environment `env0`. -/
theorem C4_witness :
    (createAuraeRootCA clean0 marshal0 env0 "" "example.aurae.io").cert
      = some cert0 ∧
    (createAuraeRootCA clean0 marshal0 env0 "" "example.aurae.io").err
      = none ∧
    (cert0.NotBefore = env0.now ∧
      cert0.NotAfter - cert0.NotBefore = 9999 * (24 * nanosPerHour)) :=
  ⟨rfl, rfl,
    C4_validity_window clean0 marshal0 env0 "" "example.aurae.io" cert0
      rfl rfl⟩

/-- Claim C5: for every input domain name string, whenever the certificate
template is built it carries the domain name verbatim as Common Name, and its
DNS name list is exactly that one name. -/
theorem C5_common_name_dns (clean : String → String)
    (marshal : RSAPrivateKey → List Nat) (env : Env) (path d : String)
    (c : Certificate)
    (hc : (createAuraeRootCA clean marshal env path d).cert = some c) :
    c.Subject.CommonName = d ∧ c.DNSNames = [d] := by
  obtain ⟨priv, bs, h1, h2, hcc⟩ := run_cert_char clean marshal env path d c hc
  subst hcc
  exact ⟨rfl, rfl⟩

/-- Witness for C5 at the concrete environment `env0` (note the domain string
is a plain datum: nothing constrains its shape). -/
theorem C5_witness :
    (createAuraeRootCA clean0 marshal0 env0 "" "example.aurae.io").cert
      = some cert0 ∧
    (cert0.Subject.CommonName = "example.aurae.io" ∧
      cert0.DNSNames = ["example.aurae.io"]) :=
  ⟨rfl,
    C5_common_name_dns clean0 marshal0 env0 "" "example.aurae.io" cert0 rfl⟩

/-- Claim C6: for every successful call, the issued certificate has
`IsCA = true` and `BasicConstraintsValid = true`. -/
theorem C6_is_ca (clean : String → String)
    (marshal : RSAPrivateKey → List Nat) (env : Env) (path d : String)
    (c : Certificate)
    (hc : (createAuraeRootCA clean marshal env path d).cert = some c)
    (he : (createAuraeRootCA clean marshal env path d).err = none) :
    c.IsCA = true ∧ c.BasicConstraintsValid = true := by
  obtain ⟨priv, bs, h1, h2, hcc⟩ := run_cert_char clean marshal env path d c hc
  subst hcc
  exact ⟨rfl, rfl⟩

/-- Witness for C6 at the concrete environment `env0`. -/
theorem C6_witness :
    (createAuraeRootCA clean0 marshal0 env0 "" "example.aurae.io").cert
      = some cert0 ∧
    (createAuraeRootCA clean0 marshal0 env0 "" "example.aurae.io").err
      = none ∧
    (cert0.IsCA = true ∧ cert0.BasicConstraintsValid = true) :=
  ⟨rfl, rfl,
    C6_is_ca clean0 marshal0 env0 "" "example.aurae.io" cert0 rfl rfl⟩

/-- Claim C7: for every call with an empty output path, no filesystem
interaction occurs — the trace of attempted directory creations and file
writes is empty. -/
theorem C7_empty_path_no_fs (clean : String → String)
    (marshal : RSAPrivateKey → List Nat) (env : Env) (d : String) :
    (createAuraeRootCA clean marshal env "" d).trace = [] := by
  rcases h1 : env.keyGen with _ | priv
  · rw [run_keyGen_fail clean marshal env "" d h1]
  rcases h2 : env.serialRead with _ | bs
  · rw [run_serial_fail clean marshal env "" d priv h1 h2]
  rcases h3 : env.createCert
      (caTemplate env.now d (beBytesToNat bs) priv.PublicKey.N) priv
    with _ | der
  · rw [run_createCert_fail clean marshal env "" d priv bs h1 h2 h3]
  · rw [run_success_nopath clean marshal env d priv bs der h1 h2 h3]

/-- Claim C8: for every successful call, the returned certificate string is
the PEM block of type `CERTIFICATE` wrapping the DER bytes, and the returned
key string is the PEM block of type `RSA PRIVATE KEY` wrapping the PKCS#1
encoding of the generated private key. -/
theorem C8_pem_output (clean : String → String)
    (marshal : RSAPrivateKey → List Nat) (env : Env) (path d : String)
    (k : RSAPrivateKey) (der : List Nat)
    (he : (createAuraeRootCA clean marshal env path d).err = none)
    (hk : (createAuraeRootCA clean marshal env path d).key = some k)
    (hd : (createAuraeRootCA clean marshal env path d).der = some der) :
    (createAuraeRootCA clean marshal env path d).ca =
      some ⟨pemEncode "CERTIFICATE" der,
            pemEncode "RSA PRIVATE KEY" (marshal k)⟩ := by
  obtain ⟨priv, bs, der', h1, h2, h3, hca, hkey, hder, hcert, hcomp⟩ :=
    run_success_char clean marshal env path d he
  rw [hkey] at hk
  have hpk : priv = k := by injection hk
  subst hpk
  rw [hder] at hd
  have hdd : der' = der := by injection hd
  subst hdd
  rw [hca]
  rfl

/-- Witness for C8 at the concrete environment `env0`. -/
theorem C8_witness :
    (createAuraeRootCA clean0 marshal0 env0 "" "example.aurae.io").err
      = none ∧
    (createAuraeRootCA clean0 marshal0 env0 "" "example.aurae.io").key
      = some key0 ∧
    (createAuraeRootCA clean0 marshal0 env0 "" "example.aurae.io").der
      = some [1, 2, 3] ∧
    (createAuraeRootCA clean0 marshal0 env0 "" "example.aurae.io").ca =
      some ⟨pemEncode "CERTIFICATE" [1, 2, 3],
            pemEncode "RSA PRIVATE KEY" (marshal0 key0)⟩ :=
  ⟨rfl, rfl, rfl,
    C8_pem_output clean0 marshal0 env0 "" "example.aurae.io" key0 [1, 2, 3]
      rfl rfl rfl⟩

/-- Claim C9: for every call in which the template is built, the subject is
the full constant identity — Organization `["Aurae"]`, OrganizationalUnit
`["Runtime"]`, StreetAddress `["aurae"]`, Locality `["aurae"]`, Country
`["IS"]` — plus the caller's common name. -/
theorem C9_subject_constants (clean : String → String)
    (marshal : RSAPrivateKey → List Nat) (env : Env) (path d : String)
    (c : Certificate)
    (hc : (createAuraeRootCA clean marshal env path d).cert = some c) :
    c.Subject = ⟨["Aurae"], ["Runtime"], ["aurae"], ["aurae"], ["IS"], d⟩ := by
  obtain ⟨priv, bs, h1, h2, hcc⟩ := run_cert_char clean marshal env path d c hc
  subst hcc
  rfl

/-- Witness for C9 at the concrete environment `env0`. -/
theorem C9_witness :
    (createAuraeRootCA clean0 marshal0 env0 "" "example.aurae.io").cert
      = some cert0 ∧
    cert0.Subject = ⟨["Aurae"], ["Runtime"], ["aurae"], ["aurae"], ["IS"],
      "example.aurae.io"⟩ :=
  ⟨rfl,
    C9_subject_constants clean0 marshal0 env0 "" "example.aurae.io" cert0 rfl⟩

/-- Claim C2: a persistence failure is the only error class for which the
already-computed bundle is returned alongside the error; every other failure
returns the error together with the empty bundle and no bundle was
computed. -/
theorem C2_error_classes (clean : String → String)
    (marshal : RSAPrivateKey → List Nat) (env : Env) (path d : String)
    (e : CAError)
    (he : (createAuraeRootCA clean marshal env path d).err = some e) :
    (e.isPersist = true →
      (createAuraeRootCA clean marshal env path d).ca
          = (createAuraeRootCA clean marshal env path d).computed ∧
        ((createAuraeRootCA clean marshal env path d).computed).isSome
          = true) ∧
    (e.isPersist = false →
      (createAuraeRootCA clean marshal env path d).ca = some ⟨"", ""⟩ ∧
        (createAuraeRootCA clean marshal env path d).computed = none) := by
  rcases h1 : env.keyGen with _ | priv
  · rw [run_keyGen_fail clean marshal env path d h1] at he ⊢
    simp only [Option.some.injEq] at he
    subst he
    simp [CAError.isPersist]
  rcases h2 : env.serialRead with _ | bs
  · rw [run_serial_fail clean marshal env path d priv h1 h2] at he ⊢
    simp only [Option.some.injEq] at he
    subst he
    simp [CAError.isPersist]
  rcases h3 : env.createCert
      (caTemplate env.now d (beBytesToNat bs) priv.PublicKey.N) priv
    with _ | der
  · rw [run_createCert_fail clean marshal env path d priv bs h1 h2 h3]
      at he ⊢
    simp only [Option.some.injEq] at he
    subst he
    simp [CAError.isPersist]
  by_cases h0 : path = ""
  · subst h0
    rw [run_success_nopath clean marshal env d priv bs der h1 h2 h3] at he
    simp at he
  rcases h4 : createCAFiles clean env path (caBundle marshal priv der)
    with ⟨oe, tr⟩
  rcases oe with _ | pe
  · rw [run_persist_ok clean marshal env path d priv bs der tr
      h0 h1 h2 h3 h4] at he
    simp at he
  · rw [run_persist_fail clean marshal env path d priv bs der pe tr
      h0 h1 h2 h3 h4] at he ⊢
    simp only [Option.some.injEq] at he
    subst he
    simp [CAError.isPersist]

/-- Witness for C2: a concrete run whose `os.MkdirAll` fails returns the
persistence error together with the computed bundle. -/
theorem C2_witness :
    (createAuraeRootCA clean0 marshal0 envMkdirFail "tmp" "x").err
      = some (CAError.persist PersistError.mkdir) ∧
    ((createAuraeRootCA clean0 marshal0 envMkdirFail "tmp" "x").ca
        = (createAuraeRootCA clean0 marshal0 envMkdirFail "tmp" "x").computed ∧
      ((createAuraeRootCA clean0 marshal0 envMkdirFail "tmp" "x").computed).isSome
        = true) :=
  ⟨rfl,
    (C2_error_classes clean0 marshal0 envMkdirFail "tmp" "x"
      (CAError.persist PersistError.mkdir) rfl).1 rfl⟩

/-- Claim C10: the returned bundle pointer is never nil; on a non-persistence
failure it points to the empty bundle, on a persistence failure and on
success it points to the computed bundle, and the computed bundle does not
depend on the filesystem outcomes — it is identical to the one the same call
returns on success. -/
theorem C10_returned_pointer (clean : String → String)
    (marshal : RSAPrivateKey → List Nat) (env : Env) (path d : String) :
    ((createAuraeRootCA clean marshal env path d).ca).isSome = true ∧
    (∀ e, (createAuraeRootCA clean marshal env path d).err = some e →
      e.isPersist = false →
      (createAuraeRootCA clean marshal env path d).ca = some ⟨"", ""⟩) ∧
    (∀ e, (createAuraeRootCA clean marshal env path d).err = some e →
      e.isPersist = true →
      (createAuraeRootCA clean marshal env path d).ca
        = (createAuraeRootCA clean marshal env path d).computed) ∧
    ((createAuraeRootCA clean marshal env path d).err = none →
      (createAuraeRootCA clean marshal env path d).ca
        = (createAuraeRootCA clean marshal env path d).computed) ∧
    (∀ f g, (createAuraeRootCA clean marshal (env.setFS f g) path d).computed
        = (createAuraeRootCA clean marshal env path d).computed) := by
  rcases h1 : env.keyGen with _ | priv
  · rw [run_keyGen_fail clean marshal env path d h1]
    refine ⟨rfl, ?_, ?_, ?_, ?_⟩
    · intro e hee hp
      rfl
    · intro e hee hp
      simp only [Option.some.injEq] at hee
      subst hee
      simp [CAError.isPersist] at hp
    · intro hee
      simp at hee
    · intro f g
      rw [run_keyGen_fail clean marshal (env.setFS f g) path d h1]
  rcases h2 : env.serialRead with _ | bs
  · rw [run_serial_fail clean marshal env path d priv h1 h2]
    refine ⟨rfl, ?_, ?_, ?_, ?_⟩
    · intro e hee hp
      rfl
    · intro e hee hp
      simp only [Option.some.injEq] at hee
      subst hee
      simp [CAError.isPersist] at hp
    · intro hee
      simp at hee
    · intro f g
      rw [run_serial_fail clean marshal (env.setFS f g) path d priv h1 h2]
  rcases h3 : env.createCert
      (caTemplate env.now d (beBytesToNat bs) priv.PublicKey.N) priv
    with _ | der
  · rw [run_createCert_fail clean marshal env path d priv bs h1 h2 h3]
    refine ⟨rfl, ?_, ?_, ?_, ?_⟩
    · intro e hee hp
      rfl
    · intro e hee hp
      simp only [Option.some.injEq] at hee
      subst hee
      simp [CAError.isPersist] at hp
    · intro hee
      simp at hee
    · intro f g
      rw [run_createCert_fail clean marshal (env.setFS f g) path d priv bs
        h1 h2 h3]
  by_cases h0 : path = ""
  · subst h0
    rw [run_success_nopath clean marshal env d priv bs der h1 h2 h3]
    refine ⟨rfl, ?_, ?_, ?_, ?_⟩
    · intro e hee hp
      simp at hee
    · intro e hee hp
      simp at hee
    · intro hee
      rfl
    · intro f g
      rw [run_success_nopath clean marshal (env.setFS f g) d priv bs der
        h1 h2 h3]
  rcases h4 : createCAFiles clean env path (caBundle marshal priv der)
    with ⟨oe, tr⟩
  have hfs : ∀ f g,
      (createAuraeRootCA clean marshal (env.setFS f g) path d).computed
        = some (caBundle marshal priv der) := by
    intro f g
    rcases h5 : createCAFiles clean (env.setFS f g) path
        (caBundle marshal priv der) with ⟨oe2, tr2⟩
    rcases oe2 with _ | pe2
    · rw [run_persist_ok clean marshal (env.setFS f g) path d priv bs der tr2
        h0 h1 h2 h3 h5]
    · rw [run_persist_fail clean marshal (env.setFS f g) path d priv bs der
        pe2 tr2 h0 h1 h2 h3 h5]
  rcases oe with _ | pe
  · rw [run_persist_ok clean marshal env path d priv bs der tr
      h0 h1 h2 h3 h4]
    refine ⟨rfl, ?_, ?_, ?_, ?_⟩
    · intro e hee hp
      simp at hee
    · intro e hee hp
      simp at hee
    · intro hee
      rfl
    · intro f g
      exact hfs f g
  · rw [run_persist_fail clean marshal env path d priv bs der pe tr
      h0 h1 h2 h3 h4]
    refine ⟨rfl, ?_, ?_, ?_, ?_⟩
    · intro e hee hp
      simp only [Option.some.injEq] at hee
      subst hee
      simp [CAError.isPersist] at hp
    · intro e hee hp
      rfl
    · intro hee
      simp at hee
    · intro f g
      exact hfs f g

end Pki
